import Mathlib

/-!
Verification development for the navigator-buddy agent
(`src/navigator_buddy.py`).  The Python source is shallowly embedded:
Python values that flow through the planner/executor are modelled by the
`Json` type below (the model talks to the program only through JSON-ish
dictionaries), pure functions become Lean functions, and code that can
raise returns `Option`/`Except` or is driven by an explicit outcome
oracle where the raising part is an external collaborator (HTTP
transport, filesystem handlers).
-/

/-- A Python value as it appears in the agent's data flow: the result of
`json.loads`, plan dictionaries, step params, and so on.  `intNum` models a
Python `int`; `floatNum m e` models a float with exact decimal value
`m * 10 ^ e` (the source never does float arithmetic on these values, it
only compares them with a threshold, so an exact decimal model is adequate).
Nonstandard constants (`NaN`, `Infinity`) accepted by `json.loads` are not
modelled; no claim exercises them. -/
inductive Json where
  | null : Json
  | bool (b : Bool) : Json
  | intNum (n : Int) : Json
  | floatNum (m : Int) (e : Int) : Json
  | str (s : String) : Json
  | arr (xs : List Json) : Json
  | obj (fields : List (String × Json)) : Json

/-- Last binding for a key, mirroring a Python dict built by inserting the
pairs in order (later duplicate keys overwrite earlier ones). -/
def lookupLast : List (String × Json) → String → Option Json
  | [], _ => none
  | (k, v) :: rest, key =>
    match lookupLast rest key with
    | some r => some r
    | none => if k == key then some v else none

/-- Python `d.get(key, default)` on a dict. -/
def dictGet (fields : List (String × Json)) (key : String) (default : Json) : Json :=
  match lookupLast fields key with
  | some v => v
  | none => default

/-- Python truthiness of a value (`if parsed:`). -/
def pyTruthy : Json → Bool
  | .null => false
  | .bool b => b
  | .intNum n => n != 0
  | .floatNum m _ => m != 0
  | .str s => !s.isEmpty
  | .arr xs => !xs.isEmpty
  | .obj fs => !fs.isEmpty

/-- The short type name Python would report for a value (`type(x).__name__`). -/
def pyTypeShortName : Json → String
  | .null => "NoneType"
  | .bool _ => "bool"
  | .intNum _ => "int"
  | .floatNum _ _ => "float"
  | .str _ => "str"
  | .arr _ => "list"
  | .obj _ => "dict"

/-- Rendering of `type(x)` as used in the executor's warning f-strings. -/
def pyTypeName (j : Json) : String :=
  "<class \x27" ++ pyTypeShortName j ++ "\x27>"

/-- JSON whitespace accepted between tokens by `json.loads`. -/
def isJsonWs (c : Char) : Bool :=
  c == ' ' || c == '\t' || c == '\n' || c == '\r'

def skipWs : List Char → List Char
  | [] => []
  | c :: cs => if isJsonWs c then skipWs cs else c :: cs

/-- Python `str.strip()` / regex `\s`: whitespace at the ends of a string. -/
def isPyWs (c : Char) : Bool :=
  c == ' ' || c == '\t' || c == '\n' || c == '\r' || c == '\x0b' || c == '\x0c'

def dropLeadingWs : List Char → List Char
  | [] => []
  | c :: cs => if isPyWs c then dropLeadingWs cs else c :: cs

def pyStrip (cs : List Char) : List Char :=
  ((dropLeadingWs ((dropLeadingWs cs).reverse)).reverse)

def hexVal (c : Char) : Option Nat :=
  if '0' ≤ c ∧ c ≤ '9' then some (c.toNat - 48)
  else if 'a' ≤ c ∧ c ≤ 'f' then some (c.toNat - 87)
  else if 'A' ≤ c ∧ c ≤ 'F' then some (c.toNat - 55)
  else none

/-- Body of a JSON string literal after the opening quote: characters and
escape sequences up to the closing quote.  Unescaped control characters are
rejected, as by `json.loads` in strict mode. -/
def parseStringBody : List Char → List Char → Option (String × List Char)
  | _, [] => none
  | acc, c :: rest =>
    if c == '"' then some (String.mk acc.reverse, rest)
    else if c == '\\' then
      match rest with
      | [] => none
      | e :: r2 =>
        if e == '"' then parseStringBody ('"' :: acc) r2
        else if e == '\\' then parseStringBody ('\\' :: acc) r2
        else if e == '/' then parseStringBody ('/' :: acc) r2
        else if e == 'b' then parseStringBody ('\x08' :: acc) r2
        else if e == 'f' then parseStringBody ('\x0c' :: acc) r2
        else if e == 'n' then parseStringBody ('\n' :: acc) r2
        else if e == 'r' then parseStringBody ('\r' :: acc) r2
        else if e == 't' then parseStringBody ('\t' :: acc) r2
        else if e == 'u' then
          match r2 with
          | h1 :: h2 :: h3 :: h4 :: r3 =>
            match hexVal h1, hexVal h2, hexVal h3, hexVal h4 with
            | some v1, some v2, some v3, some v4 =>
              parseStringBody (Char.ofNat (((v1 * 16 + v2) * 16 + v3) * 16 + v4) :: acc) r3
            | _, _, _, _ => none
          | _ => none
        else none
    else if c.toNat < 32 then none
    else parseStringBody (c :: acc) rest

def digitsToNat (ds : List Char) : Nat :=
  ds.foldl (fun acc c => acc * 10 + (c.toNat - 48)) 0

def takeDigits : List Char → (List Char × List Char)
  | [] => ([], [])
  | c :: rest =>
    if c.isDigit then
      let (ds, r) := takeDigits rest
      (c :: ds, r)
    else ([], c :: rest)

/-- Integer part of a JSON number: `0` or a nonzero digit followed by digits. -/
def parseIntPart : List Char → Option (Nat × List Char)
  | [] => none
  | '0' :: rest => some (0, rest)
  | c :: rest =>
    if c.isDigit then
      let (ds, r) := takeDigits rest
      some (digitsToNat (c :: ds), r)
    else none

/-- Optional fraction part: `some digits` when a `.` is present. -/
def parseFracPart : List Char → Option (Option (List Char) × List Char)
  | '.' :: r =>
    let (ds, r2) := takeDigits r
    if ds.isEmpty then none else some (some ds, r2)
  | cs => some (none, cs)

/-- Optional exponent part. -/
def parseExpPart : List Char → Option (Option Int × List Char)
  | [] => some (none, [])
  | c :: r =>
    if c == 'e' || c == 'E' then
      let (sgn, r1) : Int × List Char :=
        match r with
        | '+' :: r2 => (1, r2)
        | '-' :: r2 => (-1, r2)
        | _ => (1, r)
      let (ds, r2) := takeDigits r1
      if ds.isEmpty then none else some (some (sgn * (digitsToNat ds : Int)), r2)
    else some (none, c :: r)

/-- A JSON number token.  Ints without fraction/exponent become Python `int`s,
anything else a float with exact decimal value `m * 10 ^ e`. -/
def parseNumber (cs : List Char) : Option (Json × List Char) :=
  let (neg, cs1) : Bool × List Char :=
    match cs with
    | '-' :: r => (true, r)
    | _ => (false, cs)
  match parseIntPart cs1 with
  | none => none
  | some (ip, cs2) =>
    match parseFracPart cs2 with
    | none => none
    | some (fr, cs3) =>
      match parseExpPart cs3 with
      | none => none
      | some (ex, cs4) =>
        match fr, ex with
        | none, none =>
          some (Json.intNum (if neg then -(ip : Int) else (ip : Int)), cs4)
        | _, _ =>
          let fds := fr.getD []
          let mant : Int := ((ip * 10 ^ fds.length + digitsToNat fds : Nat) : Int)
          some (Json.floatNum (if neg then -mant else mant)
                  ((ex.getD 0) - (fds.length : Int)), cs4)

mutual

/-- Strict JSON value parser modelling `json.loads` (recursive descent,
fuel-indexed; the top level supplies ample fuel). -/
def parseValue : Nat → List Char → Option (Json × List Char)
  | 0, _ => none
  | fuel + 1, cs =>
    match cs with
    | [] => none
    | c :: rest =>
      if c == 'n' then
        match rest with
        | 'u' :: 'l' :: 'l' :: r => some (Json.null, r)
        | _ => none
      else if c == 't' then
        match rest with
        | 'r' :: 'u' :: 'e' :: r => some (Json.bool true, r)
        | _ => none
      else if c == 'f' then
        match rest with
        | 'a' :: 'l' :: 's' :: 'e' :: r => some (Json.bool false, r)
        | _ => none
      else if c == '"' then
        match parseStringBody [] rest with
        | some (s, r) => some (Json.str s, r)
        | none => none
      else if c == '[' then
        match skipWs rest with
        | ']' :: r2 => some (Json.arr [], r2)
        | r => parseItems fuel r []
      else if c == '{' then
        match skipWs rest with
        | '}' :: r2 => some (Json.obj [], r2)
        | r => parseMembers fuel r []
      else if c == '-' || c.isDigit then parseNumber (c :: rest)
      else none

def parseItems : Nat → List Char → List Json → Option (Json × List Char)
  | 0, _, _ => none
  | fuel + 1, cs, acc =>
    match parseValue fuel cs with
    | none => none
    | some (v, rest) =>
      match skipWs rest with
      | ',' :: r2 => parseItems fuel (skipWs r2) (v :: acc)
      | ']' :: r2 => some (Json.arr (v :: acc).reverse, r2)
      | _ => none

def parseMembers : Nat → List Char → List (String × Json) → Option (Json × List Char)
  | 0, _, _ => none
  | fuel + 1, cs, acc =>
    match cs with
    | '"' :: rest =>
      match parseStringBody [] rest with
      | none => none
      | some (k, r1) =>
        match skipWs r1 with
        | ':' :: r2 =>
          match parseValue fuel (skipWs r2) with
          | none => none
          | some (v, r3) =>
            match skipWs r3 with
            | ',' :: r4 => parseMembers fuel (skipWs r4) ((k, v) :: acc)
            | '}' :: r4 => some (Json.obj ((k, v) :: acc).reverse, r4)
            | _ => none
        | _ => none
    | _ => none

end

/-- `json.loads` on a whole text: one value, only whitespace around it;
`none` models a raised `JSONDecodeError`. -/
def jsonLoads (cs : List Char) : Option Json :=
  let s := skipWs cs
  match parseValue (2 * s.length + 2) s with
  | some (v, rest) => if (skipWs rest).isEmpty then some v else none
  | none => none

-- =========================================================================
-- ReasoningEngine._extract_json (src/navigator_buddy.py lines 289-383)
-- =========================================================================

/-- Drop a literal prefix, or fail. -/
def stripLit : List Char → List Char → Option (List Char)
  | [], cs => some cs
  | _, [] => none
  | p :: ps, c :: cs => if p == c then stripLit ps cs else none

def startsWithLit (lit cs : List Char) : Bool :=
  (stripLit lit cs).isSome

/-- Regex `\s*`: maximal run of whitespace (the following literal in every
pattern used by the source starts with a non-whitespace character, so the
greedy match never needs to backtrack). -/
def skipPyWs : List Char → List Char
  | [] => []
  | c :: cs => if isPyWs c then skipPyWs cs else c :: cs

/-- Lazy body of `({.*?})` followed by (optional `\s*` and) a literal
suffix, under `re.DOTALL`: scan forward and stop at the first `}` whose
continuation matches; the capture is the brace-delimited span. -/
def lazyBraceBody (suf : List Char) (wsAfter : Bool) :
    List Char → List Char → Option (List Char)
  | _, [] => none
  | acc, c :: rest =>
    if c == '}' then
      let after := if wsAfter then skipPyWs rest else rest
      if startsWithLit suf after then some (('{' :: acc).reverse ++ ['}'])
      else lazyBraceBody suf wsAfter (c :: acc) rest
    else lazyBraceBody suf wsAfter (c :: acc) rest

/-- Attempt one fenced pattern at the start of `cs`:
literal prefix, optional `\s*`, then `({.*?})`, optional `\s*`, literal
suffix. -/
def fencedMatchAt (pre suf : List Char) (ws : Bool) (cs : List Char) : Option (List Char) :=
  match stripLit pre cs with
  | none => none
  | some r1 =>
    let r2 := if ws then skipPyWs r1 else r1
    match r2 with
    | '{' :: r3 => lazyBraceBody suf ws [] r3
    | _ => none

/-- `re.search`: leftmost starting position at which the pattern matches. -/
def fencedSearch (pre suf : List Char) (ws : Bool) : List Char → Option (List Char)
  | [] => fencedMatchAt pre suf ws []
  | c :: rest =>
    match fencedMatchAt pre suf ws (c :: rest) with
    | some cap => some cap
    | none => fencedSearch pre suf ws rest

/-- Strategy 1: the three code-block patterns in priority order; for each,
the first regex match is parsed strictly, and a parse failure moves on to
the next pattern (`except: continue`). -/
def codeBlockStrategies (response : List Char) : Option Json :=
  let pats : List (List Char × List Char × Bool) :=
    [("\x60\x60\x60json".toList, "\x60\x60\x60".toList, true),
     ("\x60\x60\x60".toList, "\x60\x60\x60".toList, true),
     ("\x60".toList, "\x60".toList, false)]
  let rec go : List (List Char × List Char × Bool) → Option Json
    | [] => none
    | (pre, suf, ws) :: ps =>
      match fencedSearch pre suf ws response with
      | some cap =>
        match jsonLoads cap with
        | some v => some v
        | none => go ps
      | none => go ps
  go pats

/-- The source's brace scanner (strategy 2): from the first `{`, walk
forward tracking brace depth, string-quote state and escapes exactly as the
Python loop does, and return the span that closes the first brace. -/
def braceSpanScan : List Char → Int → Bool → Bool → List Char → Option (List Char)
  | [], _, _, _, _ => none
  | c :: rest, brace, inStr, esc, acc =>
    if esc then braceSpanScan rest brace inStr false (c :: acc)
    else if c == '\\' then braceSpanScan rest brace inStr true (c :: acc)
    else if c == '"' then braceSpanScan rest brace (!inStr) false (c :: acc)
    else if !inStr && c == '{' then braceSpanScan rest (brace + 1) inStr false (c :: acc)
    else if !inStr && c == '}' then
      if brace - 1 == 0 then some ((c :: acc).reverse)
      else braceSpanScan rest (brace - 1) inStr false (c :: acc)
    else braceSpanScan rest brace inStr false (c :: acc)

/-- The suffix of `cs` starting at the first `{` (Python `response.find('{')`). -/
def fromFirstBrace : List Char → Option (List Char)
  | [] => none
  | c :: rest => if c == '{' then some (c :: rest) else fromFirstBrace rest

/-- Whether the next non-whitespace character closes a brace or bracket. -/
def closeAfterWs (cs : List Char) : Bool :=
  match skipPyWs cs with
  | '}' :: _ => true
  | ']' :: _ => true
  | _ => false

/-- Strategy 3 repair: `re.sub(r',(\s*[}\]])', r'\1', s)` — drop every comma
directly followed (up to whitespace) by a closing brace or bracket. -/
def fixTrailingCommas : List Char → List Char
  | [] => []
  | c :: rest =>
    if c == ',' && closeAfterWs rest then fixTrailingCommas rest
    else c :: fixTrailingCommas rest

/-- Strategies 2+3: balanced-brace span, strict parse, then repaired parse. -/
def braceSpanStrategy (response : List Char) : Option Json :=
  match fromFirstBrace response with
  | none => none
  | some tail =>
    match braceSpanScan tail 0 false false [] with
    | none => none
    | some span =>
      match jsonLoads span with
      | some v => some v
      | none => jsonLoads (fixTrailingCommas span)

/-- Python `response.split('\n')`. -/
def splitOnNl : List Char → List (List Char)
  | [] => [[]]
  | c :: rest =>
    if c == '\n' then [] :: splitOnNl rest
    else
      match splitOnNl rest with
      | l :: ls => (c :: l) :: ls
      | [] => [[c]]

/-- Strategy 5: accumulate lines once a `{` has been seen; after every line
containing `}`, try to parse everything accumulated so far. -/
def lineAccumStrategy : List (List Char) → Bool → List (List Char) → Option Json
  | [], _, _ => none
  | line :: rest, inJson, acc =>
    let inJson2 := inJson || line.contains '{'
    let acc2 := if inJson2 then acc ++ [line] else acc
    if line.contains '}' && inJson2 then
      match jsonLoads (List.intercalate ['\n'] acc2) with
      | some v => some v
      | none => lineAccumStrategy rest inJson2 acc2
    else lineAccumStrategy rest inJson2 acc2

/-- `ReasoningEngine._extract_json`: the cascade of strategies 1-5.  The
Python function's `return None` and a parsed JSON `null` are the same
Python object, so the model returns `Json.null` for both. -/
def ReasoningEngine.extract_json (response : List Char) : Json :=
  match codeBlockStrategies response with
  | some v => v
  | none =>
    match braceSpanStrategy response with
    | some v => v
    | none =>
      match jsonLoads (pyStrip response) with
      | some v => v
      | none =>
        match lineAccumStrategy (splitOnNl response) false [] with
        | some v => v
        | none => Json.null

-- =========================================================================
-- Python value rendering in f-strings (str()/repr())
-- =========================================================================

mutual

/-- Python `repr()` of a value, as used for elements inside containers.
Exact for the cases the claims exercise (strings, ints, None, bools);
float rendering is an exact-decimal approximation, never exercised. -/
def pyRepr : Json → String
  | .null => "None"
  | .bool true => "True"
  | .bool false => "False"
  | .intNum n => toString n
  | .floatNum m e => toString m ++ "e" ++ toString e
  | .str s => "\x27" ++ s ++ "\x27"
  | .arr xs => "[" ++ pyReprList xs ++ "]"
  | .obj fs => "\x7b" ++ pyReprFields fs ++ "\x7d"

def pyReprList : List Json → String
  | [] => ""
  | [x] => pyRepr x
  | x :: xs => pyRepr x ++ ", " ++ pyReprList xs

def pyReprFields : List (String × Json) → String
  | [] => ""
  | [(k, v)] => "\x27" ++ k ++ "\x27: " ++ pyRepr v
  | (k, v) :: fs => "\x27" ++ k ++ "\x27: " ++ pyRepr v ++ ", " ++ pyReprFields fs

end

/-- Python `str()` of a value, as interpolated by an f-string. -/
def pyStr : Json → String
  | .str s => s
  | j => pyRepr j

-- =========================================================================
-- OperationType / ExecutionPlan / ReasoningEngine._build_plan
-- (src/navigator_buddy.py lines 52-77 and 385-407)
-- =========================================================================

/-- `OperationType` enum: categories of operations for confidence handling. -/
inductive OperationType where
  | READ_ONLY
  | MODIFY
  | DESTRUCTIVE
  | SYSTEM
  deriving DecidableEq

/-- `ExecutionPlan` dataclass.  Field values come from model-produced JSON
unchecked, so `summary`, `steps` and `overall_confidence` hold raw values;
the defaults mirror the dataclass defaults. -/
structure ExecutionPlan where
  summary : Json
  steps : Json := Json.arr []
  overall_confidence : Json := Json.floatNum 0 0
  operation_type : OperationType := OperationType.READ_ONLY
  requires_confirmation : Bool := true

/-- `op_type_map.get(op_type_str)`: the dict lookup in `_build_plan`; only
the four known strings map to an operation type. -/
def opTypeMapGet : Json → Option OperationType
  | .str "READ_ONLY" => some OperationType.READ_ONLY
  | .str "MODIFY" => some OperationType.MODIFY
  | .str "DESTRUCTIVE" => some OperationType.DESTRUCTIVE
  | .str "SYSTEM" => some OperationType.SYSTEM
  | _ => none

/-- `ReasoningEngine._build_plan`: convert parsed plan data (a dict) into an
`ExecutionPlan`. -/
def ReasoningEngine.build_plan (plan_data : List (String × Json)) : ExecutionPlan :=
  let op_type :=
    (opTypeMapGet (dictGet plan_data "operation_type" (Json.str "READ_ONLY"))).getD
      OperationType.READ_ONLY
  { summary := dictGet plan_data "summary" (Json.str "No summary provided")
    steps := dictGet plan_data "steps" (Json.arr [])
    overall_confidence := dictGet plan_data "overall_confidence" (Json.floatNum 0 0)
    operation_type := op_type
    requires_confirmation :=
      op_type == OperationType.DESTRUCTIVE || op_type == OperationType.SYSTEM ||
        op_type == OperationType.MODIFY }

/-- The sentinel "clarification needed" plan emitted when the reasoning loop
ends without a qualifying response (src lines 278-283; `operation_type`
keeps its dataclass default). -/
def clarificationPlan : ExecutionPlan :=
  { summary := Json.str "I need more information to proceed safely."
    steps := Json.arr []
    overall_confidence := Json.floatNum 0 0
    operation_type := OperationType.READ_ONLY
    requires_confirmation := false }

-- =========================================================================
-- PlanExecutor (src/navigator_buddy.py lines 414-493)
-- =========================================================================

/-- The keys of `_execute_action`'s `action_map`. -/
def knownActions : List String :=
  ["OPEN_TERMINAL", "NAVIGATE", "OPEN_FILE", "MOVE_FILE", "COPY_FILE",
   "MODIFY_TEXT", "SEARCH_TEXT", "GENERATE_TEXT", "APPEND_TEXT", "REMOVE_TEXT",
   "SAVE_FILE", "CLOSE_FILE", "DELETE_FILE", "DELETE_TEXT"]

/-- `PlanExecutor._execute_action`: dispatch to the named handler.  The
per-action handlers reach into the filesystem/UI (external collaborators,
spec section 6), so they are the oracle `fs`; `.error e` models a handler
raising an exception rendered as `e`, `.ok r` a returned outcome string.
Unknown actions produce a handled outcome, never an error. -/
def PlanExecutor.execute_action
    (fs : String → List (String × Json) → Except String String)
    (action : Json) (params : List (String × Json)) : Except String String :=
  match action with
  | .str a =>
    if knownActions.contains a then fs a params
    else .ok ("Unknown action: " ++ a)
  | other => .ok ("Unknown action: " ++ pyStr other)

/-- The scalar-coercion table in `PlanExecutor.execute` lines 441-454: which
single string parameter a scalar is wrapped into, per action. -/
def scalarParamKey : Json → Option String
  | .str "NAVIGATE" => some "path"
  | .str "OPEN_FILE" => some "path"
  | .str "CLOSE_FILE" => some "path"
  | .str "DELETE_FILE" => some "path"
  | .str "SAVE_FILE" => some "path"
  | .str "SEARCH_TEXT" => some "pattern"
  | .str "OPEN_TERMINAL" => some "path"
  | _ => none

/-- The step loop of `PlanExecutor.execute`: malformed steps are skipped
with a warning, scalar params are normalized, a handler error appends the
error outcome and breaks the batch. -/
def PlanExecutor.executeSteps
    (fs : String → List (String × Json) → Except String String) :
    List Json → List String
  | [] => []
  | step :: rest =>
    match step with
    | .str s =>
      ("⚠️ Skipping malformed step: " ++ s) :: PlanExecutor.executeSteps fs rest
    | .obj fields =>
      let action := dictGet fields "action" (Json.str "")
      let params0 := dictGet fields "params" (Json.obj [])
      let desc := dictGet fields "description" action
      let norm : List String × List (String × Json) :=
        match params0 with
        | .obj p => ([], p)
        | .str s =>
          match scalarParamKey action with
          | some k => ([], [(k, Json.str s)])
          | none =>
            (["⚠️ Params for " ++ pyStr action ++ " not a dict, got: " ++ pyTypeName params0],
             [])
        | _ =>
          (["⚠️ Params for " ++ pyStr action ++ " not a dict, got: " ++ pyTypeName params0],
           [])
      match PlanExecutor.execute_action fs action norm.2 with
      | .ok r => norm.1 ++ ("✅ " ++ pyStr desc ++ ": " ++ r) :: PlanExecutor.executeSteps fs rest
      | .error e => norm.1 ++ ["❌ " ++ pyStr desc ++ ": Error - " ++ e]
    | other =>
      ("⚠️ Skipping invalid step type: " ++ pyTypeName other) :: PlanExecutor.executeSteps fs rest

/-- Python iteration over a value (`for step in plan.steps`): lists yield
elements, strings their characters, dicts their keys; anything else raises
`TypeError`. -/
def pyIter : Json → Option (List Json)
  | .arr xs => some xs
  | .str s => some (s.toList.map (fun c => Json.str (String.mk [c])))
  | .obj fs => some (fs.map (fun kv => Json.str kv.1))
  | _ => none

/-- `PlanExecutor.execute`: run the plan's steps and return the outcome
strings; a non-iterable `steps` value raises. -/
def PlanExecutor.execute
    (fs : String → List (String × Json) → Except String String)
    (plan : ExecutionPlan) : Except String (List String) :=
  match pyIter plan.steps with
  | some steps => .ok (PlanExecutor.executeSteps fs steps)
  | none =>
    .error ("TypeError: \x27" ++ pyTypeShortName plan.steps ++ "\x27 object is not iterable")

-- =========================================================================
-- ReasoningEngine.run (src/navigator_buddy.py lines 204-287)
-- =========================================================================

/-- A corrective instruction appended to the running prompt context.  The
prompt is consumed only by the model-gateway oracle, so its textual
rendering is immaterial; the model keeps the accumulated structure. -/
inductive Correction where
  | lowConfidence (conf : Json)
  | requireJson

/-- The running prompt context: the initial context-aware prompt plus the
corrective instructions accumulated across iterations. -/
structure PromptCtx where
  base : String
  additions : List Correction

/-- Value usable with Python's `:.0%` format specifier (ints, floats,
bools); anything else raises inside the reasoning-display f-string. -/
def formatsAsPercent : Json → Bool
  | .intNum _ => true
  | .floatNum _ _ => true
  | .bool _ => true
  | _ => false

/-- One reasoning step displays without raising: it must be a dict and its
`confidence` value (default `0`) must be formattable as a percentage. -/
def reasoningStepDisplayable : Json → Bool
  | .obj f => formatsAsPercent (dictGet f "confidence" (Json.intNum 0))
  | _ => false

/-- `for step in parsed.get("reasoning", [])` runs without raising: lists
iterate over displayable elements; empty strings and empty dicts iterate
zero times; anything else raises (non-iterable, or elements without
`.get`). -/
def reasoningDisplayable : Json → Bool
  | .arr xs => xs.all reasoningStepDisplayable
  | .str s => s.isEmpty
  | .obj f => f.isEmpty
  | _ => false

/-- Exact value of a modelled float. -/
def floatVal (m e : Int) : ℚ :=
  if 0 ≤ e then (m : ℚ) * (10 : ℚ) ^ e.toNat else (m : ℚ) / (10 : ℚ) ^ (-e).toNat

/-- Python `confidence >= threshold` on a raw value: numbers and bools
compare; anything else raises `TypeError` (`none`). -/
def pyGeThreshold : Json → ℚ → Option Bool
  | .intNum n, t => some (decide (t ≤ (n : ℚ)))
  | .floatNum m e, t => some (decide (t ≤ floatVal m e))
  | .bool b, t => some (decide (t ≤ (if b then (1 : ℚ) else 0)))
  | _, _ => none

/-- Outcome of one iteration body of the reasoning loop, after the response
has been generated: `done` hits the confidence break and builds the plan;
`addCorrection` appends an instruction to the context and retries;
`noChange` is the `except` path (parse/attribute/type errors) which retries
with the context unchanged. -/
inductive IterOut where
  | done (p : ExecutionPlan)
  | addCorrection (c : Correction)
  | noChange

def IterOut.isDone : IterOut → Bool
  | .done _ => true
  | _ => false

/-- The body of one reasoning-loop iteration (src lines 232-272) applied to
the model's response text. -/
def ReasoningEngine.iterate (threshold : ℚ) (response : List Char) : IterOut :=
  let parsed := ReasoningEngine.extract_json response
  if pyTruthy parsed then
    match parsed with
    | .obj fields =>
      if reasoningDisplayable (dictGet fields "reasoning" (Json.arr [])) then
        match dictGet fields "plan" (Json.obj []) with
        | .obj pf =>
          match pyGeThreshold (dictGet pf "overall_confidence" (Json.intNum 0)) threshold with
          | some true => .done (ReasoningEngine.build_plan pf)
          | some false =>
            .addCorrection (.lowConfidence (dictGet pf "overall_confidence" (Json.intNum 0)))
          | none => .noChange
        | _ => .noChange
      else .noChange
    | _ => .noChange
  else .addCorrection .requireJson

/-- Result of a reasoning run: `cancelledMid` is the bare `return` after a
mid-iteration cancellation (nothing emitted); `emitted` carries the single
plan passed to `plan_ready.emit` together with the number of loop
iterations performed. -/
inductive RunResult where
  | cancelledMid (iterations : Nat)
  | emitted (iterations : Nat) (plan : ExecutionPlan)

def RunResult.iterations : RunResult → Nat
  | .cancelledMid n => n
  | .emitted n _ => n

/-- The `while` loop of `ReasoningEngine.run`.  `gen` is the model-gateway
oracle; `cancelGuard n` is the `_cancelled` flag as sampled by the loop
guard before iteration `n + 1`, `cancelAfter n` as sampled after the
network call of iteration `n`.  The fuel argument is `max_loops -
loop_count`, so the guard `loop_count < max_loops` is fuel exhaustion. -/
def ReasoningEngine.runFrom (gen : PromptCtx → List Char)
    (cancelGuard cancelAfter : Nat → Bool) (threshold : ℚ) :
    Nat → Nat → PromptCtx → RunResult
  | 0, loopCount, _ => .emitted loopCount clarificationPlan
  | fuel + 1, loopCount, ctx =>
    if cancelGuard loopCount then .emitted loopCount clarificationPlan
    else
      let response := gen ctx
      if cancelAfter (loopCount + 1) then .cancelledMid (loopCount + 1)
      else
        match ReasoningEngine.iterate threshold response with
        | .done p => .emitted (loopCount + 1) p
        | .addCorrection c =>
          ReasoningEngine.runFrom gen cancelGuard cancelAfter threshold fuel (loopCount + 1)
            { ctx with additions := ctx.additions ++ [c] }
        | .noChange =>
          ReasoningEngine.runFrom gen cancelGuard cancelAfter threshold fuel (loopCount + 1) ctx

/-- `ReasoningEngine.run`: the confidence-gated reasoning loop, ending in a
single emission (the built plan, or the sentinel clarification plan) unless
cancelled mid-iteration. -/
def ReasoningEngine.run (gen : PromptCtx → List Char)
    (cancelGuard cancelAfter : Nat → Bool) (threshold : ℚ) (maxLoops : Nat)
    (base : String) : RunResult :=
  ReasoningEngine.runFrom gen cancelGuard cancelAfter threshold maxLoops 0
    { base := base, additions := [] }

-- =========================================================================
-- OllamaClient.generate (src/navigator_buddy.py lines 101-123)
-- =========================================================================

/-- Outcome of the `try` body of `OllamaClient.generate`: the HTTP call
and response decoding are external (the `requests` transport), so the
body's fate is an oracle.  `raises` cases carry the rendered exception
text `str(e)`; `ok` carries the decoded response body. -/
inductive HttpOutcome where
  | transportError (excText : String)
  | httpStatusError (excText : String)
  | jsonDecodeError (excText : String)
  | ok (body : Json)

/-- `OllamaClient.generate`: every exception inside the try block is caught
and rendered as ordinary response text `"Error: " ++ str(e)`; the function
is total (it never lets an exception escape, which the model expresses by
returning `Json`, not `Except`).  On success it returns
`response.json().get("response", "")`; `.get` on a non-dict body raises an
`AttributeError`, also caught. -/
def OllamaClient.generate : HttpOutcome → Json
  | .transportError e => .str ("Error: " ++ e)
  | .httpStatusError e => .str ("Error: " ++ e)
  | .jsonDecodeError e => .str ("Error: " ++ e)
  | .ok body =>
    match body with
    | .obj fields => dictGet fields "response" (Json.str "")
    | other =>
      .str ("Error: \x27" ++ pyTypeShortName other ++ "\x27 object has no attribute \x27get\x27")

-- =========================================================================
-- NavigatorBuddy task supervisor fragments
-- (src/navigator_buddy.py lines 1569-1919)
-- =========================================================================

/-- One tracked subtask (`{id, description, status}`); `status` is read with
`st.get('status')`, so a missing status is `none`. -/
structure Subtask where
  id : Nat
  description : String
  status : Option String

/-- What the supervisor decides right after parsing a verification response
that claims `complete` (src lines 1734-1749). -/
inductive VerifyOutcome where
  | goalAchievedReset
  | continueTurn (isComplete : Bool)
  deriving DecidableEq

/-- The completion double-check in `execute_agentic`: a blanket
`complete: true` is honored only when every tracked subtask's recorded
status is `'complete'` (or no subtasks are tracked); otherwise completion
is overridden to `false` and the turn continues. -/
def NavigatorBuddy.completionGate (isComplete : Bool) (subtasks : List Subtask) :
    VerifyOutcome :=
  if isComplete then
    if subtasks.all (fun st => st.status == some "complete") || subtasks.isEmpty then
      .goalAchievedReset
    else .continueTurn false
  else .continueTurn isComplete

/-- The error-streak fields of `task_context` used by `_track_error`. -/
structure ErrorTrack where
  errors : List String
  last_error : Option String
  consecutive_errors : Nat

def ErrorTrack.fresh : ErrorTrack :=
  { errors := [], last_error := none, consecutive_errors := 0 }

/-- The error-signature normalization in `_track_error`:
`error_msg.split(":")[-1].strip()` when a colon is present. -/
def coreError (msg : String) : String :=
  if msg.contains ':' then ((msg.splitOn ":").getLastD msg).trim else msg

/-- `NavigatorBuddy._track_error` (src lines 1851-1863). -/
def NavigatorBuddy.track_error (t : ErrorTrack) (msg : String) : ErrorTrack :=
  let core := coreError msg
  if t.last_error == some core then
    { errors := t.errors ++ [msg], last_error := t.last_error,
      consecutive_errors := t.consecutive_errors + 1 }
  else
    { errors := t.errors ++ [msg], last_error := some core,
      consecutive_errors := 1 }

/-- `NavigatorBuddy._handle_execution_error` (src lines 1865-1883), ported
with its exact branch structure, including the unreachable `"stop"`. -/
def NavigatorBuddy.handle_execution_error (consecutive alt_attempts : Nat) : String :=
  if 3 ≤ consecutive then
    if 5 ≤ alt_attempts then "impossible" else "alternative"
  else if consecutive < 3 then "retry"
  else "stop"

/-- `searched_dirs[-n:]`. -/
def lastN (n : Nat) (xs : List String) : List String :=
  xs.drop (xs.length - n)

/-- The navigation-loop warning text (src line 1662). -/
def navLoopWarningText : String :=
  "\n\n🚨 NAVIGATION LOOP DETECTED! You have searched the same directory multiple times. You MUST try a DIFFERENT approach:\n- Use SEARCH_TEXT to find the file across the system\n- Try parent directories or common locations\n- Check if the file actually exists\n- Consider that the file might have a different name\n"

/-- The navigation-loop detection in `execute_agentic` (src lines
1657-1662): only fires when more than 3 directories have been recorded and
the 3 most recent are not all distinct. -/
def NavigatorBuddy.loopWarning (searched : List String) : String :=
  if 3 < searched.length then
    let recent := lastN 3 searched
    if recent.eraseDups.length < recent.length then navLoopWarningText else ""
  else ""

/-- `searched_dirs_str` (src line 1655). -/
def NavigatorBuddy.searchedDirsStr (searched : List String) : String :=
  if searched.isEmpty then "  (None yet)"
  else String.intercalate "\n" ((lastN 10 searched).map (fun d => "  - " ++ d))

/-- The part of the verification prompt before the loop warning. -/
def NavigatorBuddy.verificationPromptPre
    (goal subtasksStatus progressLog currentDir openFilesStr : String)
    (turnCount maxTurns : Nat) (searched : List String) : String :=
  "\nOriginal goal: " ++ goal ++
  "\n\nSubtasks to complete:\n" ++
  (if !subtasksStatus.isEmpty then subtasksStatus else "  (No subtasks defined)") ++
  "\n\nProgress so far:\n" ++
  (if !progressLog.isEmpty then progressLog else "  (No actions yet)") ++
  "\n\nCurrent state:\n- Directory: " ++ currentDir ++
  "\n- Open files: " ++ openFilesStr ++
  "\n- Turn: " ++ toString (turnCount + 1) ++ "/" ++ toString maxTurns ++
  "\n\nAlready searched directories (DO NOT search these again):\n" ++
  NavigatorBuddy.searchedDirsStr searched

/-- The part of the verification prompt after the loop warning. -/
def NavigatorBuddy.verificationPromptPost : String :=
  "\n\nCRITICAL RULES:\n1. Check EACH subtask individually - goal is only complete when ALL subtasks are done\n2. DO NOT navigate to directories already searched\n3. If looking for a file, try DIFFERENT locations or use SEARCH_TEXT\n4. If file not found after 2-3 directory checks, use SEARCH_TEXT action instead\n\nRespond with JSON:\n\x7b\n    \"complete\": true/false,\n    \"subtasks_status\": \x7b\n        \"subtask_1\": \"complete/incomplete/not_started\",\n        \"subtask_2\": \"complete/incomplete/not_started\",\n        ...\n    \x7d,\n    \"reasoning\": \"detailed explanation of what\x27s been done and what remains\",\n    \"next_action\": \x7b\n        \"action\": \"ACTION_NAME\",\n        \"params\": \x7b...\x7d,\n        \"description\": \"what to do next\"\n    \x7d\n\x7d\n\nOnly set complete=true if ALL subtasks are verified complete. If ANY subtask remains, provide the next_action.\n"

/-- The verification prompt built each turn (src lines 1648-1704): the
formatted sections around `{searched_dirs_str}{loop_warning}`. -/
def NavigatorBuddy.verificationPrompt
    (goal subtasksStatus progressLog currentDir openFilesStr : String)
    (turnCount maxTurns : Nat) (searched : List String) : String :=
  NavigatorBuddy.verificationPromptPre goal subtasksStatus progressLog currentDir
      openFilesStr turnCount maxTurns searched ++
    NavigatorBuddy.loopWarning searched ++
    NavigatorBuddy.verificationPromptPost

-- =========================================================================
-- Support definitions for theorem statements
-- =========================================================================

/-- A well-formed step record `{action, params, description}` as the model
produces it (all three fields present, action and description strings). -/
def mkStepJson (action : String) (params : List (String × Json)) (desc : String) : Json :=
  Json.obj [("action", Json.str action), ("params", Json.obj params),
            ("description", Json.str desc)]

/-- A well-formed step paired with the outcome its handler returns, for
stating the fail-fast property. -/
structure OkStep where
  action : String
  params : List (String × Json)
  desc : String
  outcome : String

-- =========================================================================
-- Theorems
-- =========================================================================

/-- C1: for every plan built by `ReasoningEngine._build_plan` from parsed
plan data, `requires_confirmation` is true iff `operation_type` is MODIFY,
DESTRUCTIVE or SYSTEM, false iff it is READ_ONLY, and an unrecognized
`operation_type` value defaults to READ_ONLY with no confirmation. -/
theorem build_plan_confirmation_characterization :
    ∀ plan_data : List (String × Json),
      ((ReasoningEngine.build_plan plan_data).requires_confirmation = true ↔
        (ReasoningEngine.build_plan plan_data).operation_type ∈
          [OperationType.MODIFY, OperationType.DESTRUCTIVE, OperationType.SYSTEM])
      ∧ ((ReasoningEngine.build_plan plan_data).requires_confirmation = false ↔
        (ReasoningEngine.build_plan plan_data).operation_type = OperationType.READ_ONLY)
      ∧ (opTypeMapGet (dictGet plan_data "operation_type" (Json.str "READ_ONLY")) = none →
          (ReasoningEngine.build_plan plan_data).operation_type = OperationType.READ_ONLY ∧
          (ReasoningEngine.build_plan plan_data).requires_confirmation = false) := by
  intro plan_data
  cases h : opTypeMapGet (dictGet plan_data "operation_type" (Json.str "READ_ONLY")) with
  | none => simp [ReasoningEngine.build_plan, h]
  | some op => cases op <;> simp [ReasoningEngine.build_plan, h]

/-- Witness for C1: a concrete unrecognized operation type string. -/
theorem build_plan_confirmation_characterization_witness :
    (ReasoningEngine.build_plan [("operation_type", Json.str "LAUNCH")]).operation_type =
        OperationType.READ_ONLY ∧
      (ReasoningEngine.build_plan
          [("operation_type", Json.str "LAUNCH")]).requires_confirmation = false :=
  (build_plan_confirmation_characterization [("operation_type", Json.str "LAUNCH")]).2.2 rfl

/-- C3: the error-triage decision is `retry` iff fewer than 3 consecutive
identical-signature errors, `alternative` iff at least 3 and fewer than 5
alternative attempts, `impossible` iff at least 3 and at least 5
alternative attempts; and after four identical-signature failures tracked
from a fresh context the triage is `alternative` (never `retry`) while
fewer than 5 alternatives were tried, `impossible` afterwards. -/
theorem error_triage_characterization :
    (∀ c a : Nat,
      (NavigatorBuddy.handle_execution_error c a = "retry" ↔ c < 3)
      ∧ (NavigatorBuddy.handle_execution_error c a = "alternative" ↔ (3 ≤ c ∧ a < 5))
      ∧ (NavigatorBuddy.handle_execution_error c a = "impossible" ↔ (3 ≤ c ∧ 5 ≤ a)))
    ∧ (∀ (m : String) (a : Nat),
      NavigatorBuddy.handle_execution_error
          (NavigatorBuddy.track_error
            (NavigatorBuddy.track_error
              (NavigatorBuddy.track_error
                (NavigatorBuddy.track_error ErrorTrack.fresh m) m) m) m).consecutive_errors a
        = if a < 5 then "alternative" else "impossible") := by
  constructor
  · intro c a
    rcases Nat.lt_or_ge c 3 with hc | hc
    · have h3 : ¬ 3 ≤ c := by omega
      simp [NavigatorBuddy.handle_execution_error, h3, hc]
    · rcases Nat.lt_or_ge a 5 with ha | ha
      · have h5 : ¬ 5 ≤ a := by omega
        simp [NavigatorBuddy.handle_execution_error, hc, h5, ha]
      · simp [NavigatorBuddy.handle_execution_error, hc, ha]
  · intro m a
    have htrack : (NavigatorBuddy.track_error
        (NavigatorBuddy.track_error
          (NavigatorBuddy.track_error
            (NavigatorBuddy.track_error ErrorTrack.fresh m) m) m) m).consecutive_errors = 4 := by
      simp [NavigatorBuddy.track_error, ErrorTrack.fresh]
    rw [htrack]
    rcases Nat.lt_or_ge a 5 with ha | ha
    · have h5 : ¬ 5 ≤ a := by omega
      simp [NavigatorBuddy.handle_execution_error, h5, ha]
    · have h5 : ¬ a < 5 := by omega
      simp [NavigatorBuddy.handle_execution_error, ha, h5]

/-- C4: whenever a verification response claims `complete: true` while the
tracked subtask list is non-empty and some tracked subtask's recorded
status is not `'complete'`, the supervisor overrides completion to `false`
and continues the turn loop instead of declaring the goal achieved and
resetting the task context. -/
theorem supervisor_overrides_incomplete_subtasks (subtasks : List Subtask)
    (h1 : subtasks ≠ [])
    (h2 : ∃ st ∈ subtasks, st.status ≠ some "complete") :
    NavigatorBuddy.completionGate true subtasks = VerifyOutcome.continueTurn false := by
  have hall : subtasks.all (fun st => st.status == some "complete") = false := by
    rcases h2 with ⟨st, hmem, hst⟩
    rw [List.all_eq_false]
    exact ⟨st, hmem, by simpa using hst⟩
  have hemp : subtasks.isEmpty = false := by
    cases subtasks with
    | nil => exact absurd rfl h1
    | cons a l => rfl
  simp [NavigatorBuddy.completionGate, hall, hemp]

/-- Witness for C4: one tracked subtask recorded `incomplete` while the
model claims completion. -/
theorem supervisor_overrides_incomplete_subtasks_witness :
    NavigatorBuddy.completionGate true [⟨1, "step one", some "incomplete"⟩]
      = VerifyOutcome.continueTurn false :=
  supervisor_overrides_incomplete_subtasks [⟨1, "step one", some "incomplete"⟩]
    (by simp) ⟨⟨1, "step one", some "incomplete"⟩, by simp, by simp⟩

/-- C9: dispatching NAVIGATE with scalar params `"/tmp/x"` (any path
string) produces exactly the same execution as params `{"path": "/tmp/x"}`:
the executor normalizes the scalar into the path-keyed mapping before
invoking the handler, for every handler oracle. -/
theorem navigate_scalar_params_equivalence
    (fs : String → List (String × Json) → Except String String)
    (path d : String) (rest : List Json) (sm oc : Json) (ot : OperationType) (rc : Bool) :
    PlanExecutor.execute fs
        { summary := sm,
          steps := Json.arr (Json.obj [("action", Json.str "NAVIGATE"),
            ("params", Json.str path), ("description", Json.str d)] :: rest),
          overall_confidence := oc, operation_type := ot, requires_confirmation := rc }
      = PlanExecutor.execute fs
        { summary := sm,
          steps := Json.arr (Json.obj [("action", Json.str "NAVIGATE"),
            ("params", Json.obj [("path", Json.str path)]), ("description", Json.str d)] :: rest),
          overall_confidence := oc, operation_type := ot, requires_confirmation := rc } := rfl

/-- C10: `OllamaClient.generate` is total (modelled by returning a value,
never an exception) and maps every transport/HTTP/decoding failure to the
string `"Error: "` followed by the exception text, so gateway failures
reach callers as ordinary response text; on success it returns the decoded
`response` field (default `""`). -/
theorem generate_wraps_failures_as_text :
    (∀ e, OllamaClient.generate (HttpOutcome.transportError e) = Json.str ("Error: " ++ e))
    ∧ (∀ e, OllamaClient.generate (HttpOutcome.httpStatusError e) = Json.str ("Error: " ++ e))
    ∧ (∀ e, OllamaClient.generate (HttpOutcome.jsonDecodeError e) = Json.str ("Error: " ++ e))
    ∧ (∀ fields, OllamaClient.generate (HttpOutcome.ok (Json.obj fields))
        = dictGet fields "response" (Json.str "")) :=
  ⟨fun _ => rfl, fun _ => rfl, fun _ => rfl, fun _ => rfl⟩

/-- Unfolding of the step loop at a well-formed step whose handler
succeeds: one outcome is appended and execution continues. -/
theorem executeSteps_cons_ok
    (fs : String → List (String × Json) → Except String String)
    (a : String) (p : List (String × Json)) (d out : String) (rest : List Json)
    (h : PlanExecutor.execute_action fs (Json.str a) p = Except.ok out) :
    PlanExecutor.executeSteps fs (mkStepJson a p d :: rest)
      = ("✅ " ++ d ++ ": " ++ out) :: PlanExecutor.executeSteps fs rest := by
  have hstep : PlanExecutor.executeSteps fs (mkStepJson a p d :: rest)
      = match PlanExecutor.execute_action fs (Json.str a) p with
        | .ok r => ("✅ " ++ d ++ ": " ++ r) :: PlanExecutor.executeSteps fs rest
        | .error e => ["❌ " ++ d ++ ": Error - " ++ e] := rfl
  rw [hstep, h]

/-- Unfolding of the step loop at a well-formed step whose handler raises:
one error outcome is appended and the batch halts, independent of all
later steps. -/
theorem executeSteps_cons_error
    (fs : String → List (String × Json) → Except String String)
    (a : String) (p : List (String × Json)) (d e : String) (rest : List Json)
    (h : PlanExecutor.execute_action fs (Json.str a) p = Except.error e) :
    PlanExecutor.executeSteps fs (mkStepJson a p d :: rest)
      = ["❌ " ++ d ++ ": Error - " ++ e] := by
  have hstep : PlanExecutor.executeSteps fs (mkStepJson a p d :: rest)
      = match PlanExecutor.execute_action fs (Json.str a) p with
        | .ok r => ("✅ " ++ d ++ ": " ++ r) :: PlanExecutor.executeSteps fs rest
        | .error er => ["❌ " ++ d ++ ": Error - " ++ er] := rfl
  rw [hstep, h]

/-- C2: `PlanExecutor.execute` attempts well-formed steps in array order,
appends exactly one outcome per attempted step, and halts the batch at the
first step whose handler raises: for a prefix of succeeding steps followed
by a failing step and arbitrary further steps, the outcomes are exactly the
success lines of the prefix plus one error line, and the later steps'
handlers are never invoked (the result does not depend on `rest`). -/
theorem executor_fail_fast
    (fs : String → List (String × Json) → Except String String)
    (goods : List OkStep) (fa : String) (fp : List (String × Json)) (fd ferr : String)
    (rest : List Json) (sm oc : Json) (ot : OperationType) (rc : Bool)
    (hg : ∀ g ∈ goods,
      PlanExecutor.execute_action fs (Json.str g.action) g.params = Except.ok g.outcome)
    (hf : PlanExecutor.execute_action fs (Json.str fa) fp = Except.error ferr) :
    PlanExecutor.execute fs
        { summary := sm,
          steps := Json.arr ((goods.map fun g => mkStepJson g.action g.params g.desc) ++
            mkStepJson fa fp fd :: rest),
          overall_confidence := oc, operation_type := ot, requires_confirmation := rc }
      = Except.ok ((goods.map fun g => "✅ " ++ g.desc ++ ": " ++ g.outcome) ++
          ["❌ " ++ fd ++ ": Error - " ++ ferr]) := by
  show Except.ok (PlanExecutor.executeSteps fs _) = _
  congr 1
  induction goods with
  | nil => simpa using executeSteps_cons_error fs fa fp fd ferr rest hf
  | cons g gs ih =>
    have hgl : PlanExecutor.execute_action fs (Json.str g.action) g.params
        = Except.ok g.outcome := hg g (List.mem_cons_self g gs)
    have ihh := ih (fun x hx => hg x (List.mem_cons_of_mem g hx))
    simpa [executeSteps_cons_ok fs g.action g.params g.desc g.outcome _ hgl] using ihh

/-- Witness for C2: the spec's `[ok, fail, ok]` instance — exactly two
outcomes are returned, and the third step's handler is never invoked. -/
theorem executor_fail_fast_witness :
    PlanExecutor.execute
        (fun a _ => if a == "OPEN_FILE" then Except.error "boom" else Except.ok "done")
        { summary := Json.str "s",
          steps := Json.arr
            [mkStepJson "NAVIGATE" [("path", Json.str "/tmp")] "go",
             mkStepJson "OPEN_FILE" [("path", Json.str "/tmp/a")] "open",
             mkStepJson "NAVIGATE" [("path", Json.str "/tmp/b")] "go again"],
          overall_confidence := Json.floatNum 95 (-2),
          operation_type := OperationType.READ_ONLY, requires_confirmation := false }
      = Except.ok ["✅ go: done", "❌ open: Error - boom"] := by
  have h := executor_fail_fast
    (fun a _ => if a == "OPEN_FILE" then Except.error "boom" else Except.ok "done")
    [⟨"NAVIGATE", [("path", Json.str "/tmp")], "go", "done"⟩]
    "OPEN_FILE" [("path", Json.str "/tmp/a")] "open" "boom"
    [mkStepJson "NAVIGATE" [("path", Json.str "/tmp/b")] "go again"]
    (Json.str "s") (Json.floatNum 95 (-2)) OperationType.READ_ONLY false
    (by intro g hgm; simp at hgm; subst hgm; rfl) rfl
  simpa using h

/-- Iteration count of the reasoning loop, from any starting point. -/
theorem runFrom_iterations_le (gen : PromptCtx → List Char)
    (cg ca : Nat → Bool) (th : ℚ) :
    ∀ fuel loopCount ctx,
      (ReasoningEngine.runFrom gen cg ca th fuel loopCount ctx).iterations ≤ loopCount + fuel := by
  intro fuel
  induction fuel with
  | zero => intro lc ctx; simp [ReasoningEngine.runFrom, RunResult.iterations]
  | succ n ih =>
    intro lc ctx
    unfold ReasoningEngine.runFrom
    by_cases hcg : cg lc
    · simp [hcg, RunResult.iterations]
    · by_cases hca : ca (lc + 1)
      · simp [hcg, hca, RunResult.iterations]
      · simp only [hcg, hca, if_neg, Bool.false_eq_true, if_false]
        cases ReasoningEngine.iterate th (gen ctx) with
        | done p => simp [RunResult.iterations]
        | addCorrection c =>
          calc (ReasoningEngine.runFrom gen cg ca th n (lc + 1)
                  { ctx with additions := ctx.additions ++ [c] }).iterations
              ≤ (lc + 1) + n := ih (lc + 1) _
            _ = lc + (n + 1) := by omega
        | noChange =>
          calc (ReasoningEngine.runFrom gen cg ca th n (lc + 1) ctx).iterations
              ≤ (lc + 1) + n := ih (lc + 1) ctx
            _ = lc + (n + 1) := by omega

/-- C5: for every model-gateway oracle, cancellation behavior, threshold
and `max_loops`, the reasoning loop performs at most `max_loops` iterations
(and, being a total function of its inputs, always terminates) — in
particular also when every response is unparseable. -/
theorem planner_terminates_within_budget (gen : PromptCtx → List Char)
    (cg ca : Nat → Bool) (th : ℚ) (maxLoops : Nat) (base : String) :
    (ReasoningEngine.run gen cg ca th maxLoops base).iterations ≤ maxLoops := by
  simpa using runFrom_iterations_le gen cg ca th maxLoops 0 { base := base, additions := [] }

/-- When no iteration reaches the confidence break and nothing is
cancelled, the loop consumes its whole budget and emits the sentinel. -/
theorem runFrom_exhaustion_emits_clarification (gen : PromptCtx → List Char)
    (cg ca : Nat → Bool) (th : ℚ)
    (hcg : ∀ n, cg n = false) (hca : ∀ n, ca n = false)
    (hnd : ∀ ctx, (ReasoningEngine.iterate th (gen ctx)).isDone = false) :
    ∀ fuel loopCount ctx,
      ReasoningEngine.runFrom gen cg ca th fuel loopCount ctx
        = RunResult.emitted (loopCount + fuel) clarificationPlan := by
  intro fuel
  induction fuel with
  | zero => intro lc ctx; simp [ReasoningEngine.runFrom]
  | succ n ih =>
    intro lc ctx
    unfold ReasoningEngine.runFrom
    rw [hcg lc, hca (lc + 1)]
    simp only [Bool.false_eq_true, if_false]
    cases hit : ReasoningEngine.iterate th (gen ctx) with
    | done p =>
      exfalso
      have := hnd ctx
      rw [hit] at this
      simp [IterOut.isDone] at this
    | addCorrection c =>
      have h2 : lc + (n + 1) = lc + 1 + n := by omega
      rw [h2]
      exact ih (lc + 1) { ctx with additions := ctx.additions ++ [c] }
    | noChange =>
      have h2 : lc + (n + 1) = lc + 1 + n := by omega
      rw [h2]
      exact ih (lc + 1) ctx

/-- C6: if the loop budget is exhausted without any response reaching the
confidence break (and without cancellation), the planner still emits
exactly one plan — the sentinel clarification plan with empty steps,
overall confidence `0.0`, and `requires_confirmation = false`. -/
theorem planner_exhaustion_emits_clarification (gen : PromptCtx → List Char)
    (cg ca : Nat → Bool) (th : ℚ) (maxLoops : Nat) (base : String)
    (hcg : ∀ n, cg n = false) (hca : ∀ n, ca n = false)
    (hnd : ∀ ctx, (ReasoningEngine.iterate th (gen ctx)).isDone = false) :
    ReasoningEngine.run gen cg ca th maxLoops base
        = RunResult.emitted maxLoops clarificationPlan
      ∧ clarificationPlan.steps = Json.arr []
      ∧ clarificationPlan.overall_confidence = Json.floatNum 0 0
      ∧ clarificationPlan.requires_confirmation = false := by
  refine ⟨?_, rfl, rfl, rfl⟩
  have h := runFrom_exhaustion_emits_clarification gen cg ca th hcg hca hnd maxLoops 0
    { base := base, additions := [] }
  simpa using h

/-- Witness for C6: a gateway that always returns the empty (unparseable)
response, never cancelled, three loops. -/
theorem planner_exhaustion_emits_clarification_witness :
    ReasoningEngine.run (fun _ => []) (fun _ => false) (fun _ => false) (95 / 100) 3 "goal"
        = RunResult.emitted 3 clarificationPlan
      ∧ clarificationPlan.steps = Json.arr []
      ∧ clarificationPlan.overall_confidence = Json.floatNum 0 0
      ∧ clarificationPlan.requires_confirmation = false :=
  planner_exhaustion_emits_clarification (fun _ => []) (fun _ => false) (fun _ => false)
    (95 / 100) 3 "goal" (fun _ => rfl) (fun _ => rfl) (fun _ => rfl)

/-- C7: the claim that `_extract_json` returns `None` for every input
without a `{` fails on the code: for the brace-free input `"123"` the
whole-text parse of strategy 4 succeeds and the function returns the
Python integer `123` — a truthy non-`None` value, contradicting both the
claim and the function's own `Optional[Dict]` annotation. -/
theorem extract_json_returns_int_for_brace_free_input :
    ReasoningEngine.extract_json "123".toList = Json.intNum 123
    ∧ "123".toList.contains '{' = false :=
  ⟨rfl, rfl⟩

set_option maxRecDepth 16000 in
/-- C8 counterexample: with exactly the three recorded navigation targets
`[A, B, A]` — whose 3 most recent entries are not all distinct — the code's
`len(searched_dirs) > 3` guard fails, the loop warning is empty, and the
verification prompt does not include the warning block. -/
theorem nav_loop_warning_counterexample :
    NavigatorBuddy.loopWarning ["A", "B", "A"] = ""
    ∧ (lastN 3 ["A", "B", "A"]).eraseDups.length < (lastN 3 ["A", "B", "A"]).length
    ∧ ¬ (navLoopWarningText.toList <:+:
        (NavigatorBuddy.verificationPrompt "goal" "" "" "/home" "[]" 1 50
          ["A", "B", "A"]).toList) := by
  refine ⟨rfl, by decide, ?_⟩
  intro h
  have hmem : '🚨' ∈ (NavigatorBuddy.verificationPrompt "goal" "" "" "/home" "[]" 1 50
      ["A", "B", "A"]).toList :=
    h.subset (by decide)
  exact absurd hmem (by decide)

/-- C8 (amended): the verification prompt includes the navigation-loop
warning block whenever MORE than three navigation targets have been
recorded and the 3 most recent are not all distinct; with only three
recorded targets (such as exactly `[A, B, A]`) no warning is raised. -/
theorem nav_loop_warning_amended
    (goal subtasksStatus progressLog currentDir openFilesStr : String)
    (turnCount maxTurns : Nat) (searched : List String)
    (h1 : 3 < searched.length)
    (h2 : (lastN 3 searched).eraseDups.length < (lastN 3 searched).length) :
    NavigatorBuddy.verificationPrompt goal subtasksStatus progressLog currentDir
        openFilesStr turnCount maxTurns searched
      = NavigatorBuddy.verificationPromptPre goal subtasksStatus progressLog currentDir
          openFilesStr turnCount maxTurns searched
        ++ navLoopWarningText ++ NavigatorBuddy.verificationPromptPost := by
  unfold NavigatorBuddy.verificationPrompt NavigatorBuddy.loopWarning
  simp [h1, h2]

/-- Witness for the amended C8: four recorded targets ending `[A, B, A]`
do raise the warning block in the prompt. -/
theorem nav_loop_warning_amended_witness :
    NavigatorBuddy.verificationPrompt "goal" "" "" "/home" "[]" 1 50 ["X", "A", "B", "A"]
      = NavigatorBuddy.verificationPromptPre "goal" "" "" "/home" "[]" 1 50
          ["X", "A", "B", "A"]
        ++ navLoopWarningText ++ NavigatorBuddy.verificationPromptPost :=
  nav_loop_warning_amended "goal" "" "" "/home" "[]" 1 50 ["X", "A", "B", "A"]
    (by decide) (by decide)
